import Mathlib

/-!
Verification of the sector-shape resolution and type-specialized dispatch
core of `filecoin-proofs` (`src/filecoin-proofs/src/types/sector_shapes.rs`).

The embedding models:
* the ten sector-size constants (values fixed by the specification, §6;
  the `constants` module itself is outside the provided sources),
* the four shape type aliases and the per-size aliases (arity triples taken
  from the `LCTree<_, U8, U2, U0>`-style type parameters in the source),
* the four category predicates,
* the `with_shape_enum` / `with_shape` dispatch macros, and
* the test-module function `canonical_shape`, including the Rust `u32`
  checked subtraction `log_byte_size - 5`, which panics when
  `log_byte_size < 5` (modelled as an explicit `arithUnderflow` result).
-/

/-- Sector-size constants. Modelled from the spec: the `constants` module of
`filecoin-proofs` is not among the provided sources; §6 of the spec fixes the
ten supported byte sizes exactly. -/
def SECTOR_SIZE_2_KIB : Nat := 2048

/-- Modelled from the spec: 4 KiB sector size. -/
def SECTOR_SIZE_4_KIB : Nat := 4096

/-- Modelled from the spec: 16 KiB sector size. -/
def SECTOR_SIZE_16_KIB : Nat := 16384

/-- Modelled from the spec: 32 KiB sector size. -/
def SECTOR_SIZE_32_KIB : Nat := 32768

/-- Modelled from the spec: 8 MiB sector size (8 × 2^20). -/
def SECTOR_SIZE_8_MIB : Nat := 8 * 2 ^ 20

/-- Modelled from the spec: 16 MiB sector size (16 × 2^20). -/
def SECTOR_SIZE_16_MIB : Nat := 16 * 2 ^ 20

/-- Modelled from the spec: 512 MiB sector size (512 × 2^20). -/
def SECTOR_SIZE_512_MIB : Nat := 512 * 2 ^ 20

/-- Modelled from the spec: 1 GiB sector size (1 × 2^30). -/
def SECTOR_SIZE_1_GIB : Nat := 1 * 2 ^ 30

/-- Modelled from the spec: 32 GiB sector size (32 × 2^30). -/
def SECTOR_SIZE_32_GIB : Nat := 32 * 2 ^ 30

/-- Modelled from the spec: 64 GiB sector size (64 × 2^30). -/
def SECTOR_SIZE_64_GIB : Nat := 64 * 2 ^ 30

/-- The ten supported sector sizes (spec §3, §6). -/
def supported_sizes : List Nat :=
  [SECTOR_SIZE_2_KIB, SECTOR_SIZE_4_KIB, SECTOR_SIZE_16_KIB, SECTOR_SIZE_32_KIB,
   SECTOR_SIZE_8_MIB, SECTOR_SIZE_16_MIB, SECTOR_SIZE_512_MIB, SECTOR_SIZE_1_GIB,
   SECTOR_SIZE_32_GIB, SECTOR_SIZE_64_GIB]

/-- The arity triple carried by a merkle-tree shape type.  In the source a
shape is `LCTree<DefaultTreeHasher, Arity, SubTreeArity, TopTreeArity>`; the
hasher plays no role in any claim, so a shape is embedded as its three
`typenum` arity parameters. -/
structure TreeShape where
  base : Nat
  sub : Nat
  top : Nat
deriving DecidableEq, Repr

/-- Alias `type SectorShapeBase = LCTree<DefaultTreeHasher, U8, U0, U0>`. -/
def SectorShapeBase : TreeShape := ⟨8, 0, 0⟩

/-- Alias `type SectorShapeSub2 = LCTree<DefaultTreeHasher, U8, U2, U0>`. -/
def SectorShapeSub2 : TreeShape := ⟨8, 2, 0⟩

/-- Alias `type SectorShapeSub8 = LCTree<DefaultTreeHasher, U8, U8, U0>`. -/
def SectorShapeSub8 : TreeShape := ⟨8, 8, 0⟩

/-- Alias `type SectorShapeTop2 = LCTree<DefaultTreeHasher, U8, U8, U2>`. -/
def SectorShapeTop2 : TreeShape := ⟨8, 8, 2⟩

/-- Alias `type SectorShape2KiB = SectorShapeBase`. -/
def SectorShape2KiB : TreeShape := SectorShapeBase

/-- Alias `type SectorShape8MiB = SectorShapeBase`. -/
def SectorShape8MiB : TreeShape := SectorShapeBase

/-- Alias `type SectorShape512MiB = SectorShapeBase`. -/
def SectorShape512MiB : TreeShape := SectorShapeBase

/-- Alias `type SectorShape4KiB = SectorShapeSub2`. -/
def SectorShape4KiB : TreeShape := SectorShapeSub2

/-- Alias `type SectorShape16MiB = SectorShapeSub2`. -/
def SectorShape16MiB : TreeShape := SectorShapeSub2

/-- Alias `type SectorShape1GiB = SectorShapeSub2`. -/
def SectorShape1GiB : TreeShape := SectorShapeSub2

/-- Alias `type SectorShape16KiB = SectorShapeSub8`. -/
def SectorShape16KiB : TreeShape := SectorShapeSub8

/-- Alias `type SectorShape32GiB = SectorShapeSub8`. -/
def SectorShape32GiB : TreeShape := SectorShapeSub8

/-- Alias `type SectorShape32KiB = SectorShapeTop2`. -/
def SectorShape32KiB : TreeShape := SectorShapeTop2

/-- Alias `type SectorShape64GiB = SectorShapeTop2`. -/
def SectorShape64GiB : TreeShape := SectorShapeTop2

/-- The triple of arities read back from a shape, mirroring the test helper
`arities_to_usize::<Tree>()`. -/
def arities (t : TreeShape) : Nat × Nat × Nat := (t.base, t.sub, t.top)

/-- Predicate `is_sector_shape_base` from the source: matches 2 KiB, 8 MiB, 512 MiB. -/
def is_sector_shape_base (sector_size : Nat) : Bool :=
  sector_size == SECTOR_SIZE_2_KIB || sector_size == SECTOR_SIZE_8_MIB ||
    sector_size == SECTOR_SIZE_512_MIB

/-- Predicate `is_sector_shape_sub2` from the source: matches 4 KiB, 16 MiB, 1 GiB. -/
def is_sector_shape_sub2 (sector_size : Nat) : Bool :=
  sector_size == SECTOR_SIZE_4_KIB || sector_size == SECTOR_SIZE_16_MIB ||
    sector_size == SECTOR_SIZE_1_GIB

/-- Predicate `is_sector_shape_sub8` from the source: matches 16 KiB, 32 GiB. -/
def is_sector_shape_sub8 (sector_size : Nat) : Bool :=
  sector_size == SECTOR_SIZE_16_KIB || sector_size == SECTOR_SIZE_32_GIB

/-- Predicate `is_sector_shape_top2` from the source: matches 32 KiB, 64 GiB. -/
def is_sector_shape_top2 (sector_size : Nat) : Bool :=
  sector_size == SECTOR_SIZE_32_KIB || sector_size == SECTOR_SIZE_64_GIB

/-- How many of the four category predicates hold at `n`. -/
def shape_predicate_count (n : Nat) : Nat :=
  (if is_sector_shape_base n then 1 else 0) +
  (if is_sector_shape_sub2 n then 1 else 0) +
  (if is_sector_shape_sub8 n then 1 else 0) +
  (if is_sector_shape_top2 n then 1 else 0)

/-- The discrete sector-size enumeration.  Modelled from the spec: the
`SectorSize` enum lives in an external module; the spec (§6) requires one
named variant per supported size. -/
inductive SectorSize where
  | KiB2 | KiB4 | KiB16 | KiB32
  | MiB8 | MiB16 | MiB512
  | GiB1 | GiB32 | GiB64
deriving DecidableEq, Repr

/-- Modelled from the spec: the external fallible conversion
`u64 -> SectorSize` (`TryInto` in the dispatcher); it succeeds exactly on the
ten supported byte sizes, mapping each to its named variant. -/
def SectorSize.tryFrom (n : Nat) : Option SectorSize :=
  if n = SECTOR_SIZE_2_KIB then some SectorSize.KiB2
  else if n = SECTOR_SIZE_4_KIB then some SectorSize.KiB4
  else if n = SECTOR_SIZE_16_KIB then some SectorSize.KiB16
  else if n = SECTOR_SIZE_32_KIB then some SectorSize.KiB32
  else if n = SECTOR_SIZE_8_MIB then some SectorSize.MiB8
  else if n = SECTOR_SIZE_16_MIB then some SectorSize.MiB16
  else if n = SECTOR_SIZE_512_MIB then some SectorSize.MiB512
  else if n = SECTOR_SIZE_1_GIB then some SectorSize.GiB1
  else if n = SECTOR_SIZE_32_GIB then some SectorSize.GiB32
  else if n = SECTOR_SIZE_64_GIB then some SectorSize.GiB64
  else none

/-- The `with_shape_enum!` macro: exhaustive match over the enumeration,
invoking the generic operation `f` once, specialized to the per-size shape
alias, with the extra arguments forwarded.  The caller's generic function
`$f::<Shape>($($args),*)` is embedded as `f : TreeShape → β → α` applied to
the shape and the (tupled) arguments. -/
def with_shape_enum {α β : Type} (size : SectorSize) (f : TreeShape → β → α)
    (args : β) : α :=
  match size with
  | SectorSize.KiB2 => f SectorShape2KiB args
  | SectorSize.KiB4 => f SectorShape4KiB args
  | SectorSize.KiB16 => f SectorShape16KiB args
  | SectorSize.KiB32 => f SectorShape32KiB args
  | SectorSize.MiB8 => f SectorShape8MiB args
  | SectorSize.MiB16 => f SectorShape16MiB args
  | SectorSize.MiB512 => f SectorShape512MiB args
  | SectorSize.GiB1 => f SectorShape1GiB args
  | SectorSize.GiB32 => f SectorShape32GiB args
  | SectorSize.GiB64 => f SectorShape64GiB args

/-- The `with_shape!` macro: converts the raw `u64` size via the fallible
enumeration conversion, then dispatches through `with_shape_enum`.  The Rust
`.expect("unsupported sector size")` panic on a failed conversion is embedded
as the `none` result; on success the dispatch result is wrapped in `some`. -/
def with_shape {α β : Type} (size : Nat) (f : TreeShape → β → α) (args : β) :
    Option α :=
  match SectorSize.tryFrom size with
  | some e => some (with_shape_enum e f args)
  | none => none

/-- Result of `canonical_shape`: either an arity triple, or one of the two
panic conditions of the Rust function (`assert_eq!(count_ones, 1)` and the
checked `u32` subtraction underflow). -/
inductive ShapeResult where
  | ok (shape : Nat × Nat × Nat)
  | invalidSize
  | arithUnderflow
deriving DecidableEq, Repr

/-- Rust `u64::count_ones`, fuel-indexed over the 64 bits. -/
def count_ones_aux : Nat → Nat → Nat
  | 0, _ => 0
  | fuel + 1, n => if n = 0 then 0 else n % 2 + count_ones_aux fuel (n / 2)

/-- Rust `u64::count_ones` (population count) for values below `2^64`. -/
def count_ones (n : Nat) : Nat := count_ones_aux 64 n

/-- Rust `u64::trailing_zeros`, fuel-indexed over the 64 bits (`0.trailing_zeros()
= 64` in Rust, recovered here by exhausting the fuel). -/
def trailing_zeros_aux : Nat → Nat → Nat
  | 0, _ => 0
  | fuel + 1, n => if n % 2 = 1 then 0 else 1 + trailing_zeros_aux fuel (n / 2)

/-- Rust `u64::trailing_zeros` for values below `2^64`. -/
def trailing_zeros (n : Nat) : Nat := trailing_zeros_aux 64 n

/-- The body of `canonical_shape` after `log_byte_size` has been taken, that
is, everything from `let log_nodes = log_byte_size - 5` on.  The Rust
subtraction is checked `u32` arithmetic, so `log_byte_size < 5` panics
(`arithUnderflow`).  All later subtractions cannot underflow.  The source
binds `(log_sub, log_top) : (Option, Option)` by a three-way case split and
then converts `base = 1 << log_base`, `sub/top = 1 << l` for `Some(l)` and
`0` for `None`; here that final conversion is applied inside each branch of
the same case split, so every branch returns its `(base, sub, top)` triple
directly. -/
def shape_from_log (log_byte_size : Nat) : ShapeResult :=
  if log_byte_size < 5 then ShapeResult.arithUnderflow
  else
    let log_nodes := log_byte_size - 5
    let max_tree_log := 3
    let log_max_base := 27
    let log_base := max_tree_log
    let log_in_base := min log_max_base (log_nodes / log_base * log_base)
    let log_upper := log_nodes - log_in_base
    let log_rem := log_upper % max_tree_log
    if log_upper > 0 then
      if log_rem = 0 then
        ShapeResult.ok (2 ^ log_base, 2 ^ max_tree_log, 0)
      else if log_upper > max_tree_log then
        ShapeResult.ok (2 ^ log_base, 2 ^ max_tree_log, 2 ^ log_rem)
      else
        ShapeResult.ok (2 ^ log_base, 2 ^ log_rem, 0)
    else
      ShapeResult.ok (2 ^ log_base, 0, 0)

/-- Function `canonical_shape` from the source's test module:
`assert_eq!(sector_size.count_ones(), 1)` guards the input, then the shape is
computed from `log_byte_size = sector_size.trailing_zeros()`. -/
def canonical_shape (sector_size : Nat) : ShapeResult :=
  if count_ones sector_size = 1 then
    shape_from_log (trailing_zeros sector_size)
  else ShapeResult.invalidSize

/-- The §4.1 algorithm exactly as the spec words it (used for the refinement
comparison in claim C3): `log_nodes = log2(size) − 5` expressed through the
exponent `k = log2(size)`, with the four-way case split on
`log_upper`/`log_rem`. -/
def spec_shape_alg (k : Nat) : Nat × Nat × Nat :=
  let log_nodes := k - 5
  let max_tree_log := 3
  let log_max_base := 27
  let log_in_base := min log_max_base (log_nodes / max_tree_log * max_tree_log)
  let log_upper := log_nodes - log_in_base
  let log_rem := log_upper % max_tree_log
  if log_upper = 0 then (8, 0, 0)
  else if log_rem = 0 then (8, 8, 0)
  else if log_upper > max_tree_log then (8, 8, 2 ^ log_rem)
  else (8, 2 ^ log_rem, 0)

/-- The shape selected for each enumeration variant by the dispatcher's
exhaustive match: the per-size alias used in the corresponding arm of
`with_shape_enum!`. -/
def shape_of_size : SectorSize → TreeShape
  | SectorSize.KiB2 => SectorShape2KiB
  | SectorSize.KiB4 => SectorShape4KiB
  | SectorSize.KiB16 => SectorShape16KiB
  | SectorSize.KiB32 => SectorShape32KiB
  | SectorSize.MiB8 => SectorShape8MiB
  | SectorSize.MiB16 => SectorShape16MiB
  | SectorSize.MiB512 => SectorShape512MiB
  | SectorSize.GiB1 => SectorShape1GiB
  | SectorSize.GiB32 => SectorShape32GiB
  | SectorSize.GiB64 => SectorShape64GiB

/-- Population count of `0` is `0`, for any fuel. -/
theorem count_ones_aux_zero (fuel : Nat) : count_ones_aux fuel 0 = 0 := by
  cases fuel <;> simp [count_ones_aux]

/-- A value below `2 ^ fuel` with population count `0` is `0`. -/
theorem count_ones_aux_eq_zero {fuel n : Nat} (hn : n < 2 ^ fuel)
    (h : count_ones_aux fuel n = 0) : n = 0 := by
  induction fuel generalizing n with
  | zero =>
    have h1 : n < 1 := by simpa using hn
    omega
  | succ f ih =>
    by_cases h0 : n = 0
    · exact h0
    · simp only [count_ones_aux, if_neg h0] at h
      have hpow : 2 ^ (f + 1) = 2 * 2 ^ f := by ring
      have hdiv : n / 2 < 2 ^ f := by omega
      have h1 : count_ones_aux f (n / 2) = 0 := by omega
      have h2 := ih hdiv h1
      omega

/-- A value below `2 ^ fuel` with population count `1` is a power of two. -/
theorem count_ones_aux_eq_one {fuel n : Nat} (hn : n < 2 ^ fuel)
    (h : count_ones_aux fuel n = 1) : ∃ k, n = 2 ^ k := by
  induction fuel generalizing n with
  | zero => simp [count_ones_aux] at h
  | succ f ih =>
    by_cases h0 : n = 0
    · subst h0
      simp [count_ones_aux] at h
    · simp only [count_ones_aux, if_neg h0] at h
      have hpow : 2 ^ (f + 1) = 2 * 2 ^ f := by ring
      have hdiv : n / 2 < 2 ^ f := by omega
      by_cases hodd : n % 2 = 1
      · have h1 : count_ones_aux f (n / 2) = 0 := by omega
        have h2 := count_ones_aux_eq_zero hdiv h1
        refine ⟨0, ?_⟩
        have h3 : n = 1 := by omega
        simp [h3]
      · have h1 : count_ones_aux f (n / 2) = 1 := by omega
        obtain ⟨k, hk⟩ := ih hdiv h1
        refine ⟨k + 1, ?_⟩
        have h2 : n = 2 * (n / 2) := by omega
        rw [h2, hk]
        ring

/-- Powers of two below `2 ^ 64` have population count `1`. -/
theorem count_ones_two_pow : ∀ k, k < 64 → count_ones (2 ^ k) = 1 := by decide

/-- Trailing-zero count of `2 ^ k` is `k`, for `k < 64`. -/
theorem trailing_zeros_two_pow : ∀ k, k < 64 → trailing_zeros (2 ^ k) = k := by decide

/-- The shape computation agrees with the literal spec algorithm for every
in-range exponent. -/
theorem shape_from_log_spec :
    ∀ k, k < 64 → 5 ≤ k → shape_from_log k = ShapeResult.ok (spec_shape_alg k) := by
  decide

/-- Any triple produced by `shape_from_log` has base 8, and a nonzero top
arity only together with a nonzero sub arity. -/
theorem shape_from_log_ok {L : Nat} {sh : Nat × Nat × Nat}
    (h : shape_from_log L = ShapeResult.ok sh) :
    sh.1 = 8 ∧ (0 < sh.2.2 → 0 < sh.2.1) := by
  simp only [shape_from_log] at h
  split at h
  · simp at h
  · split at h
    · split at h
      · injection h with h
        subst h
        refine ⟨by norm_num, ?_⟩
        simp
      · split at h
        · injection h with h
          subst h
          exact ⟨by norm_num, fun _ => by norm_num⟩
        · injection h with h
          subst h
          refine ⟨by norm_num, ?_⟩
          simp
    · injection h with h
      subst h
      refine ⟨by norm_num, ?_⟩
      simp

/-- Any triple produced by `canonical_shape` has base 8, and a nonzero top
arity only together with a nonzero sub arity. -/
theorem canonical_shape_ok {n : Nat} {sh : Nat × Nat × Nat}
    (h : canonical_shape n = ShapeResult.ok sh) :
    sh.1 = 8 ∧ (0 < sh.2.2 → 0 < sh.2.1) := by
  unfold canonical_shape at h
  split at h
  · exact shape_from_log_ok h
  · simp at h

/-- C1 (counterexample): at the supported size 32 KiB the Registry's triple
`SectorShape32KiB = (8, 8, 2)` differs from `canonical_shape`, which yields
`(8, 2, 0)`; the claimed consistency invariant fails there. -/
theorem registry_canonical_mismatch_32KiB :
    ¬ (canonical_shape SECTOR_SIZE_32_KIB = ShapeResult.ok (arities SectorShape32KiB)) := by
  decide

/-- C1 (amended): for eight of the ten supported sizes — all but 16 KiB and
32 KiB, exactly the sizes the repository's own test exercises — the arity
triple of the per-size alias equals `canonical_shape` of the size; for 16 KiB
and 32 KiB the Registry triple differs from `canonical_shape`. -/
theorem registry_matches_canonical_on_tested_sizes :
    canonical_shape SECTOR_SIZE_2_KIB = ShapeResult.ok (arities SectorShape2KiB) ∧
    canonical_shape SECTOR_SIZE_4_KIB = ShapeResult.ok (arities SectorShape4KiB) ∧
    canonical_shape SECTOR_SIZE_8_MIB = ShapeResult.ok (arities SectorShape8MiB) ∧
    canonical_shape SECTOR_SIZE_16_MIB = ShapeResult.ok (arities SectorShape16MiB) ∧
    canonical_shape SECTOR_SIZE_512_MIB = ShapeResult.ok (arities SectorShape512MiB) ∧
    canonical_shape SECTOR_SIZE_1_GIB = ShapeResult.ok (arities SectorShape1GiB) ∧
    canonical_shape SECTOR_SIZE_32_GIB = ShapeResult.ok (arities SectorShape32GiB) ∧
    canonical_shape SECTOR_SIZE_64_GIB = ShapeResult.ok (arities SectorShape64GiB) ∧
    canonical_shape SECTOR_SIZE_16_KIB ≠ ShapeResult.ok (arities SectorShape16KiB) ∧
    canonical_shape SECTOR_SIZE_32_KIB ≠ ShapeResult.ok (arities SectorShape32KiB) := by
  decide

/-- C2 (counterexample): the listed scenario `16,384 → (8, 8, 0)` is false:
`canonical_shape 16384` yields `(8, 0, 0)`. -/
theorem canonical_shape_16KiB_scenario_false :
    ¬ (canonical_shape 16384 = ShapeResult.ok (8, 8, 0)) := by
  decide

/-- C2 (amended): the concrete scenarios hold with the 16 KiB and 32 KiB
entries corrected to `canonical_shape`'s actual outputs, `(8, 0, 0)` and
`(8, 2, 0)`; the other eight scenario values are as claimed. -/
theorem canonical_shape_concrete_scenarios :
    canonical_shape 2048 = ShapeResult.ok (8, 0, 0) ∧
    canonical_shape 4096 = ShapeResult.ok (8, 2, 0) ∧
    canonical_shape 16384 = ShapeResult.ok (8, 0, 0) ∧
    canonical_shape 32768 = ShapeResult.ok (8, 2, 0) ∧
    canonical_shape (8 * 2 ^ 20) = ShapeResult.ok (8, 0, 0) ∧
    canonical_shape (16 * 2 ^ 20) = ShapeResult.ok (8, 2, 0) ∧
    canonical_shape (512 * 2 ^ 20) = ShapeResult.ok (8, 0, 0) ∧
    canonical_shape (1 * 2 ^ 30) = ShapeResult.ok (8, 2, 0) ∧
    canonical_shape (32 * 2 ^ 30) = ShapeResult.ok (8, 8, 0) ∧
    canonical_shape (64 * 2 ^ 30) = ShapeResult.ok (8, 8, 2) := by
  decide

/-- C3 (counterexample): at the power of two `1` the §4.1 algorithm (with the
truncated subtraction the spec's `log_nodes = log2(size) - 5` implies) would
yield the triple `(8, 0, 0)`, but `canonical_shape` returns no triple at all —
the checked `u32` subtraction underflows. -/
theorem canonical_shape_one_no_triple :
    canonical_shape 1 = ShapeResult.arithUnderflow ∧
    canonical_shape 1 ≠ ShapeResult.ok (spec_shape_alg 1) := by
  decide

/-- C3 (amended): for every power of two `2 ^ k` in the `u64` range with
`k ≥ 5` (size ≥ 32), `canonical_shape` returns exactly the triple prescribed
by the §4.1 algorithm: `log_nodes = k - 5`,
`log_in_base = min 27 (log_nodes / 3 * 3)`, `log_upper = log_nodes -
log_in_base`, `log_rem = log_upper % 3`, with the four-way case split on
`log_upper` and `log_rem`. -/
theorem canonical_shape_follows_spec_algorithm (k : Nat) (h5 : 5 ≤ k)
    (h64 : k ≤ 63) :
    canonical_shape (2 ^ k) = ShapeResult.ok (spec_shape_alg k) := by
  have hc : count_ones (2 ^ k) = 1 := count_ones_two_pow k (by omega)
  have ht : trailing_zeros (2 ^ k) = k := trailing_zeros_two_pow k (by omega)
  unfold canonical_shape
  rw [if_pos hc, ht]
  exact shape_from_log_spec k (by omega) h5

/-- C3 (witness): the amended algorithm claim instantiated at `k = 36`
(the 64 GiB size). -/
theorem canonical_shape_follows_spec_algorithm_witness :
    5 ≤ 36 ∧ 36 ≤ 63 ∧ canonical_shape (2 ^ 36) = ShapeResult.ok (spec_shape_alg 36) :=
  ⟨by decide, by decide,
   canonical_shape_follows_spec_algorithm 36 (by decide) (by decide)⟩

/-- C4: the `with_shape!` dispatcher, on any of the ten supported byte sizes,
succeeds and returns exactly one invocation of the generic operation `f`,
specialized to the shape of that size's category with the arguments forwarded;
on any other value the enum conversion fails, the dispatch returns the
unsupported-sector-size fault (`none`), and the result contains no invocation
of `f`. -/
theorem with_shape_dispatch_total {α β : Type} (n : Nat)
    (f : TreeShape → β → α) (args : β) :
    (n ∈ supported_sizes →
      ∃ e, SectorSize.tryFrom n = some e ∧
        with_shape n f args = some (f (shape_of_size e) args)) ∧
    (n ∉ supported_sizes → with_shape n f args = none) := by
  constructor
  · intro hn
    simp only [supported_sizes, List.mem_cons, List.not_mem_nil, or_false] at hn
    rcases hn with rfl | rfl | rfl | rfl | rfl | rfl | rfl | rfl | rfl | rfl
    all_goals exact ⟨_, rfl, rfl⟩
  · intro hn
    simp only [supported_sizes, List.mem_cons, List.not_mem_nil, or_false,
      not_or] at hn
    obtain ⟨h1, h2, h3, h4, h5, h6, h7, h8, h9, h10⟩ := hn
    have hnone : SectorSize.tryFrom n = none := by
      simp [SectorSize.tryFrom, h1, h2, h3, h4, h5, h6, h7, h8, h9, h10]
    simp [with_shape, hnone]

/-- C4 (witness): the dispatcher instantiated at the supported size 2048 and
at the unsupported size 3000000. -/
theorem with_shape_dispatch_total_witness :
    2048 ∈ supported_sizes ∧
    (∃ e, SectorSize.tryFrom 2048 = some e ∧
      with_shape 2048 (fun t (_ : Unit) => arities t) () =
        some (arities (shape_of_size e))) ∧
    3000000 ∉ supported_sizes ∧
    with_shape 3000000 (fun t (_ : Unit) => arities t) () = none :=
  ⟨by decide,
   (with_shape_dispatch_total 2048 (fun t (_ : Unit) => arities t) ()).1 (by decide),
   by decide,
   (with_shape_dispatch_total 3000000 (fun t (_ : Unit) => arities t) ()).2 (by decide)⟩

/-- C5: the four category predicates partition the supported-size set —
exactly one is true at each of the ten supported sizes, and all four are
false at every other value. -/
theorem shape_predicates_partition (n : Nat) :
    (n ∈ supported_sizes → shape_predicate_count n = 1) ∧
    (n ∉ supported_sizes →
      is_sector_shape_base n = false ∧ is_sector_shape_sub2 n = false ∧
      is_sector_shape_sub8 n = false ∧ is_sector_shape_top2 n = false) := by
  constructor
  · intro hn
    simp only [supported_sizes, List.mem_cons, List.not_mem_nil, or_false] at hn
    rcases hn with rfl | rfl | rfl | rfl | rfl | rfl | rfl | rfl | rfl | rfl
    all_goals decide
  · intro hn
    simp only [supported_sizes, List.mem_cons, List.not_mem_nil, or_false,
      not_or] at hn
    obtain ⟨h1, h2, h3, h4, h5, h6, h7, h8, h9, h10⟩ := hn
    refine ⟨?_, ?_, ?_, ?_⟩ <;>
      simp [is_sector_shape_base, is_sector_shape_sub2, is_sector_shape_sub8,
        is_sector_shape_top2, h1, h2, h3, h4, h5, h6, h7, h8, h9, h10]

/-- C5 (witness): the partition property instantiated at the supported size
2048 and at the unsupported size 3000000. -/
theorem shape_predicates_partition_witness :
    2048 ∈ supported_sizes ∧ shape_predicate_count 2048 = 1 ∧
    3000000 ∉ supported_sizes ∧
    (is_sector_shape_base 3000000 = false ∧ is_sector_shape_sub2 3000000 = false ∧
     is_sector_shape_sub8 3000000 = false ∧ is_sector_shape_top2 3000000 = false) :=
  ⟨by decide, (shape_predicates_partition 2048).1 (by decide),
   by decide, (shape_predicates_partition 3000000).2 (by decide)⟩

/-- C6: `canonical_shape`, given any `u64` value that is not a power of two,
fails with the `InvalidSize` fault (the `assert_eq!(count_ones, 1)` guard) and
returns no triple.  Powers of two in the `u64` range all have exponent below
64, so non-power-of-two is expressed by the bounded quantifier. -/
theorem canonical_shape_invalid_size (n : Nat) (hn : n < 2 ^ 64)
    (hp : ∀ k, k < 64 → n ≠ 2 ^ k) :
    canonical_shape n = ShapeResult.invalidSize := by
  have hc1 : ¬ count_ones n = 1 := by
    intro hc
    obtain ⟨k, hk⟩ := count_ones_aux_eq_one hn hc
    have hklt : k < 64 := by
      by_contra hge
      push_neg at hge
      have hle : (2 : Nat) ^ 64 ≤ 2 ^ k := Nat.pow_le_pow_right (by omega) hge
      omega
    exact hp k hklt hk
  unfold canonical_shape
  rw [if_neg hc1]

/-- C6 (witness): the invalid-size fault instantiated at the non-power-of-two
value 3000000. -/
theorem canonical_shape_invalid_size_witness :
    3000000 < 2 ^ 64 ∧ canonical_shape 3000000 = ShapeResult.invalidSize :=
  ⟨by decide, canonical_shape_invalid_size 3000000 (by decide) (by decide)⟩

/-- C7: every arity triple this core produces — any `canonical_shape` output
and each of the four Registry category triples — has base 8, and has a
nonzero top arity only together with a nonzero sub arity. -/
theorem shape_base8_top_needs_sub :
    (∀ n b s t, canonical_shape n = ShapeResult.ok (b, s, t) →
      b = 8 ∧ (0 < t → 0 < s)) ∧
    (SectorShapeBase.base = 8 ∧ (0 < SectorShapeBase.top → 0 < SectorShapeBase.sub)) ∧
    (SectorShapeSub2.base = 8 ∧ (0 < SectorShapeSub2.top → 0 < SectorShapeSub2.sub)) ∧
    (SectorShapeSub8.base = 8 ∧ (0 < SectorShapeSub8.top → 0 < SectorShapeSub8.sub)) ∧
    (SectorShapeTop2.base = 8 ∧ (0 < SectorShapeTop2.top → 0 < SectorShapeTop2.sub)) := by
  refine ⟨?_, by decide, by decide, by decide, by decide⟩
  intro n b s t h
  exact canonical_shape_ok h

/-- C7 (witness): the invariant instantiated at the 64 GiB size, where the
output triple `(8, 8, 2)` has a top level. -/
theorem shape_base8_top_needs_sub_witness :
    canonical_shape (64 * 2 ^ 30) = ShapeResult.ok (8, 8, 2) ∧
    (8 = 8 ∧ (0 < 2 → 0 < 8)) :=
  ⟨by decide, shape_base8_top_needs_sub.1 (64 * 2 ^ 30) 8 8 2 (by decide)⟩

/-- C8: the dispatcher `with_shape_enum`, whenever it invokes the generic
operation, passes the caller's arguments through unchanged and returns exactly
the operation's result, applied once to the shape of the selected variant. -/
theorem with_shape_enum_forwards {α β : Type} (e : SectorSize)
    (f : TreeShape → β → α) (args : β) :
    with_shape_enum e f args = f (shape_of_size e) args := by
  cases e <;> rfl

/-- C9: `canonical_shape` and the four category predicates are deterministic —
two invocations on the same input yield the same output. -/
theorem calculator_registry_deterministic (n m : Nat) (h : n = m) :
    canonical_shape n = canonical_shape m ∧
    is_sector_shape_base n = is_sector_shape_base m ∧
    is_sector_shape_sub2 n = is_sector_shape_sub2 m ∧
    is_sector_shape_sub8 n = is_sector_shape_sub8 m ∧
    is_sector_shape_top2 n = is_sector_shape_top2 m := by
  subst h
  exact ⟨rfl, rfl, rfl, rfl, rfl⟩

/-- C9 (witness): determinism instantiated at the input 2048. -/
theorem calculator_registry_deterministic_witness :
    canonical_shape 2048 = canonical_shape 2048 ∧
    is_sector_shape_base 2048 = is_sector_shape_base 2048 ∧
    is_sector_shape_sub2 2048 = is_sector_shape_sub2 2048 ∧
    is_sector_shape_sub8 2048 = is_sector_shape_sub8 2048 ∧
    is_sector_shape_top2 2048 = is_sector_shape_top2 2048 :=
  calculator_registry_deterministic 2048 2048 rfl

/-- C10: for every power of two below 32 the checked `u32` subtraction
`log_byte_size - 5` underflows, so `canonical_shape` faults and returns no
triple even though the power-of-two precondition holds; at 32 the computation
first succeeds — the effective precondition is size ≥ 32. -/
theorem canonical_shape_underflow_below_32 :
    canonical_shape 1 = ShapeResult.arithUnderflow ∧
    canonical_shape 2 = ShapeResult.arithUnderflow ∧
    canonical_shape 4 = ShapeResult.arithUnderflow ∧
    canonical_shape 8 = ShapeResult.arithUnderflow ∧
    canonical_shape 16 = ShapeResult.arithUnderflow ∧
    canonical_shape 32 = ShapeResult.ok (8, 0, 0) := by
  decide
